import Mathlib

/-!
# Verification of the `vfile` verify-then-open subsystem

A shallow embedding of the `pkg/vfile` package (u-root): detached-signature
verification (`OpenSignedSigFile`), fixed-digest verification
(`OpenHashedFile256`) and key-ring filtering (`GetRSAKeysFromRing`),
together with proofs of the behavioural properties stated in the
specification and exercised by `vfile_test.go`.

The implementation file of the package is not part of the visible sources
(only its test suite is), so the operations are modelled from the
specification (§4.2–§4.4, §7); wherever the test suite pins down a
behaviour the specification leaves open or states differently, the test
suite is followed (it is the authoritative code).  The cryptographic
primitives (OpenPGP detached signatures, SHA-256) are out of scope per the
specification and are modelled as idealised building blocks.
-/

/-! ## Data model: keys, identities, signatures -/

/-- Public-key algorithm tag carried by every key (spec §3 KeyRing:
"each tagged with an algorithm (e.g., RSA, DSA, elliptic-curve)"). -/
inductive KeyAlg where
  | rsa
  | dsa
  | ecc
deriving DecidableEq, Repr

/-- A single piece of public-key material: an algorithm tag and a key id
(the id stands for the OpenPGP key id used for issuer matching). -/
structure Key where
  alg : KeyAlg
  keyId : Nat
deriving DecidableEq, Repr

/-- An identity of a key-ring: a primary key plus zero or more sub-keys
(spec §3: "each holding zero or more public-key KeyMaterial values
(a primary key plus zero or more sub-keys)"). -/
structure Entity where
  primaryKey : Key
  subkeys : List Key
deriving DecidableEq, Repr

/-- All keys of an identity, primary key first. -/
def Entity.keys (e : Entity) : List Key :=
  e.primaryKey :: e.subkeys

/-- Whether an identity owns a key with the given key id (primary or sub-key);
this is the issuer lookup of detached-signature checking. -/
def Entity.hasKeyId (e : Entity) (kid : Nat) : Bool :=
  e.keys.any (fun k => k.keyId = kid)

/-- A detached signature packet: the issuing key's id, and (idealised
crypto) the exact content bytes the signature is valid for.  A signature is
valid for `content` under key `k` iff `issuer = k.keyId` and
`data = content`. -/
structure Signature where
  issuer : Nat
  data : List Nat
deriving DecidableEq, Repr

/-! ## Data model: files and the file system -/

/-- A file at rest: its raw content bytes, and the signature packets it
parses into when read as a detached-signature file (empty for ordinary
content files).  Keeping both views abstracts the OpenPGP serialisation,
which is out of scope per spec §1. -/
structure VFile where
  content : List Nat
  sigs : List Signature
deriving DecidableEq, Repr

/-- An immutable snapshot of the file system: an association list from
paths to files.  A path absent from the list cannot be opened (ENOENT). -/
structure FS where
  files : List (String × VFile)
deriving DecidableEq, Repr

/-- Look a path up in the file system. -/
def FS.lookup (fs : FS) (p : String) : Option VFile :=
  (fs.files.find? (fun pr => pr.1 = p)).map (fun pr => pr.2)

/-- An open readable handle: content bytes plus the current read position.
Returned handles must be readable from offset 0 (spec §3 VerifiedHandle). -/
structure Handle where
  content : List Nat
  pos : Nat
deriving DecidableEq, Repr

/-- Reading the rest of a handle: everything from the current position on. -/
def Handle.readAll (h : Handle) : List Nat :=
  h.content.drop h.pos

/-! ## Error taxonomy (spec §7, names from `vfile_test.go`) -/

/-- The error taxonomy of the package (spec §7).  `pathError op p` is the
raw open failure `&os.PathError{Op: op, Path: p, Err: ENOENT}` (ENOENT is
the only errno the file-system model produces); `errUnsigned` and
`errInvalidHash` carry the failing path and wrap their cause, matching
`ErrUnsigned{Path, Err}` and `ErrInvalidHash{Path, Err}` of the test
suite; `errHashMismatch` carries both the computed and the expected
digest (`ErrHashMismatch{Got, Want}`). -/
inductive VError where
  | pathError (op : String) (path : String)
  | errUnsigned (path : String) (err : VError)
  | errNoKeyRing
  | errUnknownIssuer
  | errSignatureInvalid
  | errInvalidHash (path : String) (err : VError)
  | errNoExpectedHash
  | errHashMismatch (got : List Nat) (want : List Nat)
  | errNoUsableKey
deriving DecidableEq, Repr

/-! ## Detached-signature checking -/

/-- Modelled from the spec: the OpenPGP detached-signature primitive
(`openpgp.CheckDetachedSignature`), out of scope per §1 and used by §4.3
step 4.  A ring validates "if any identity's key validates the signature"
(yes/any semantics); when no signature's issuer is found among the ring's
keys the failure is the unknown-issuer error (the value
`errors.ErrUnknownIssuer` asserted by `TestOpenSignedFile`); when an
issuer is found but no signature is valid the failure is a
signature-invalid error.  Returns `none` on success. -/
def checkDetachedSignature (ring : List Entity) (content : List Nat)
    (sigs : List Signature) : Option VError :=
  if sigs.any (fun s => ring.any (fun e => e.hasKeyId s.issuer && decide (s.data = content))) then
    none
  else if sigs.any (fun s => ring.any (fun e => e.hasKeyId s.issuer)) then
    some .errSignatureInvalid
  else
    some .errUnknownIssuer

/-! ## SignedFileVerifier (spec §4.3) -/

/-- Modelled from the spec: `OpenSignedFile(keyring, path, pathSig)`
(§4.3), the implementation file being absent from the visible sources.
Steps, in the spec's order:
1. open `path`; on failure return the raw open error unwrapped;
2. open `pathSig`; on failure return unsigned-file wrapping the open error;
3. a nil key-ring fails with unsigned-file wrapping no-key-ring — per
   `TestOpenSignedFile` ("nil keyring" vs "non-nil empty keyring") only a
   nil ring takes this branch: a non-nil ring with zero identities
   proceeds to verification and fails with unknown-issuer;
4. check the detached signature against the ring (any-identity semantics);
   on failure return unsigned-file wrapping the cause;
5. on success rewind the content stream (consumed by verification) to
   offset 0 and return it.
On every failure no handle is returned (spec §7 coupling).
The Go function returns the pair `(*File, error)`; both components are
modelled, each optional. -/
def OpenSignedFile (keyring : Option (List Entity)) (path pathSig : String)
    (fs : FS) : Option Handle × Option VError :=
  match fs.lookup path with
  | none => (none, some (.pathError "open" path))
  | some f =>
    match fs.lookup pathSig with
    | none => (none, some (.errUnsigned path (.pathError "open" pathSig)))
    | some sigf =>
      match keyring with
      | none => (none, some (.errUnsigned path .errNoKeyRing))
      | some ring =>
        let consumed : Handle := { content := f.content, pos := f.content.length }
        match checkDetachedSignature ring consumed.content sigf.sigs with
        | some e => (none, some (.errUnsigned path e))
        | none => (some { consumed with pos := 0 }, none)

/-- Modelled from the spec: `OpenSignedSigFile(keyring, path)` — the
companion signature file lives at `path` + the fixed suffix `".sig"`
(spec §6, and `fmt.Sprintf("%s.sig", path)` in the test suite). -/
def OpenSignedSigFile (keyring : Option (List Entity)) (path : String)
    (fs : FS) : Option Handle × Option VError :=
  OpenSignedFile keyring path (path ++ ".sig") fs

/-! ## DigestFileVerifier (spec §4.4) -/

/-- Modelled from the spec: the fixed 256-bit digest primitive (SHA-256),
out of scope per §1 ("compute 256-bit digest" is a trusted building
block).  Modelled as an executable 32-byte fingerprint; none of the
verified properties depend on anything but byte-equality of digests. -/
def digest256 (content : List Nat) : List Nat :=
  (List.range 32).map (fun i =>
    content.foldl (fun acc b => (acc * 131 + b + 1) % 256) ((i * 73 + 41) % 256))

/-- Modelled from the spec: `OpenHashedFile256(path, expectedHash)`
(§4.4), the implementation file being absent from the visible sources.
Steps, in the spec's order (the order of steps 1 and 2 is pinned down by
the "nonexistent file" row of `TestOpenHashedFile`, whose expected digest
is nil yet whose expected error is the raw path error):
1. open `path`; on failure return the raw open error unwrapped;
2. a zero-length expected digest fails with invalid-hash wrapping
   no-expected-hash;
3. compute the content's 256-bit digest and compare byte-for-byte;
4. on mismatch fail with invalid-hash wrapping a hash-mismatch carrying
   both computed and expected digests;
5. on match rewind to offset 0 and return the handle.
On every failure no handle is returned (spec §7 coupling). -/
def OpenHashedFile256 (path : String) (expectedHash : List Nat)
    (fs : FS) : Option Handle × Option VError :=
  match fs.lookup path with
  | none => (none, some (.pathError "open" path))
  | some f =>
    if expectedHash.isEmpty then
      (none, some (.errInvalidHash path .errNoExpectedHash))
    else
      let consumed : Handle := { content := f.content, pos := f.content.length }
      let got := digest256 consumed.content
      if got = expectedHash then
        (some { consumed with pos := 0 }, none)
      else
        (none, some (.errInvalidHash path (.errHashMismatch got expectedHash)))

/-! ## RSAKeyExtractor (spec §4.2) -/

/-- Modelled from the spec: `GetRSAKeysFromRing(ring)` (§4.2), the
implementation file being absent from the visible sources.  The Go loop
walks the ring in order, appending each identity's primary key (when RSA)
and then its RSA sub-keys to a flat accumulator; an empty result is the
no-usable-key failure. -/
def GetRSAKeysFromRing (ring : List Entity) : Except VError (List Key) :=
  let keys := ring.foldl (fun acc e =>
    let acc := if e.primaryKey.alg = .rsa then acc ++ [e.primaryKey] else acc
    e.subkeys.foldl (fun a k => if k.alg = .rsa then a ++ [k] else a) acc) []
  if keys.isEmpty then .error .errNoUsableKey else .ok keys

/-- Declarative description, following the spec's words (§4.2): the RSA
keys one identity contributes, primary key before its own sub-keys. -/
def entityRSAKeys (e : Entity) : List Key :=
  (if e.primaryKey.alg = .rsa then [e.primaryKey] else [])
    ++ e.subkeys.filter (fun k => k.alg = .rsa)

/-- Declarative description, following the spec's words (§4.2): the RSA
keys of the whole ring, identities in ring order. -/
def ringRSAKeys (ring : List Entity) : List Key :=
  (ring.map entityRSAKeys).flatten

/-! ## Concrete fixtures for witnesses and counterexamples -/

/-- An RSA key, id 5 (stands for the test's key0). -/
def key0 : Key := { alg := .rsa, keyId := 5 }

/-- An RSA key, id 9 (stands for the test's key1). -/
def key1 : Key := { alg := .rsa, keyId := 9 }

/-- A DSA-only key, id 13. -/
def keyDSA : Key := { alg := .dsa, keyId := 13 }

/-- Identity owning `key0` plus one RSA sub-key. -/
def ent0 : Entity := { primaryKey := key0, subkeys := [{ alg := .rsa, keyId := 6 }] }

/-- Identity owning `key1`. -/
def ent1 : Entity := { primaryKey := key1, subkeys := [] }

/-- DSA-only identity. -/
def entDSA : Entity := { primaryKey := keyDSA, subkeys := [] }

/-- The bytes of `"foo"`. -/
def fooBytes : List Nat := [102, 111, 111]

/-- A file system fixture mirroring the test layout: `signed` (content
`"foo"`, signature by `key0`), `bykey1` (content `"foo"`, signature by
`key1`), `unsigned` (no companion signature file), and `empty` (empty
content with a companion signature by `key0`). -/
def fsW : FS :=
  { files :=
      [ ("signed", { content := fooBytes, sigs := [] }),
        ("signed.sig", { content := [], sigs := [{ issuer := 5, data := fooBytes }] }),
        ("bykey1", { content := fooBytes, sigs := [] }),
        ("bykey1.sig", { content := [], sigs := [{ issuer := 9, data := fooBytes }] }),
        ("unsigned", { content := fooBytes, sigs := [] }),
        ("empty", { content := [], sigs := [] }),
        ("empty.sig", { content := [], sigs := [{ issuer := 5, data := [] }] }) ] }

/-! ## Theorems -/

/-- Reading a handle positioned at offset 0 yields the whole content. -/
theorem Handle.readAll_pos_zero (c : List Nat) :
    Handle.readAll { content := c, pos := 0 } = c :=
  List.drop_zero c

/-- **C1.** For every file signed by a key `K` and every ring containing an
identity owning `K`, `OpenSignedSigFile` succeeds — with no error — and the
returned handle, read from offset 0, yields exactly the original
plaintext; the ring validates as soon as any one identity's key validates
any one of the detached signatures. -/
theorem openSignedSigFile_valid_signature_succeeds
    (ring : List Entity) (path : String) (fs : FS) (f sigf : VFile)
    (s : Signature) (e : Entity)
    (hf : fs.lookup path = some f)
    (hsig : fs.lookup (path ++ ".sig") = some sigf)
    (hs : s ∈ sigf.sigs) (hdata : s.data = f.content)
    (he : e ∈ ring) (hkey : e.hasKeyId s.issuer = true) :
    OpenSignedSigFile (some ring) path fs = (some { content := f.content, pos := 0 }, none)
      ∧ Handle.readAll { content := f.content, pos := 0 } = f.content := by
  have hany : (sigf.sigs.any fun s =>
      ring.any fun e => e.hasKeyId s.issuer && decide (s.data = f.content)) = true := by
    rw [List.any_eq_true]
    exact ⟨s, hs, List.any_eq_true.mpr ⟨e, he, by simp [hkey, hdata]⟩⟩
  refine ⟨?_, Handle.readAll_pos_zero f.content⟩
  simp only [OpenSignedSigFile, OpenSignedFile, hf, hsig, checkDetachedSignature, hany,
    if_true]

/-- Witness for C1: on the fixture, a ring holding the DSA identity and
the signing identity (any-identity semantics) opens the signed file and
reading it back gives `"foo"`. -/
theorem openSignedSigFile_valid_signature_succeeds_witness :
    OpenSignedSigFile (some [entDSA, ent0]) "signed" fsW
        = (some { content := fooBytes, pos := 0 }, none)
      ∧ Handle.readAll { content := fooBytes, pos := 0 } = fooBytes :=
  openSignedSigFile_valid_signature_succeeds [entDSA, ent0] "signed" fsW
    { content := fooBytes, sigs := [] }
    { content := [], sigs := [{ issuer := 5, data := fooBytes }] }
    { issuer := 5, data := fooBytes } ent0
    (by decide) (by decide) (by decide) (by decide) (by decide) (by decide)

/-- **C2.** For every call to either verifier that reports an error, the
returned handle is absent: verification failure and handle
non-availability are coupled, so a caller ignoring the error never
observes an unverified handle. -/
theorem verifier_error_implies_no_handle
    (keyring : Option (List Entity)) (path : String) (digest : List Nat) (fs : FS) :
    ((OpenSignedSigFile keyring path fs).2.isSome = true →
        (OpenSignedSigFile keyring path fs).1 = none)
      ∧ ((OpenHashedFile256 path digest fs).2.isSome = true →
        (OpenHashedFile256 path digest fs).1 = none) := by
  constructor
  · intro herr
    simp only [OpenSignedSigFile, OpenSignedFile] at herr ⊢
    cases hf : fs.lookup path with
    | none => simp [hf]
    | some f =>
      cases hsig : fs.lookup (path ++ ".sig") with
      | none => simp [hf, hsig]
      | some sigf =>
        cases keyring with
        | none => simp [hf, hsig]
        | some ring =>
          cases hc : checkDetachedSignature ring f.content sigf.sigs with
          | none => simp [hf, hsig, hc] at herr
          | some e => simp [hf, hsig, hc]
  · intro herr
    simp only [OpenHashedFile256] at herr ⊢
    cases hf : fs.lookup path with
    | none => simp [hf]
    | some f =>
      by_cases hempty : digest.isEmpty = true
      · simp [hf, hempty]
      · by_cases hmatch : digest256 f.content = digest
        · simp [hf, hempty, hmatch] at herr
        · simp [hf, hempty, hmatch]

/-- Witness for C2: a nil key-ring on the signed fixture errors with no
handle, and an empty expected digest likewise. -/
theorem verifier_error_implies_no_handle_witness :
    (OpenSignedSigFile none "signed" fsW).1 = none
      ∧ (OpenHashedFile256 "signed" [] fsW).1 = none :=
  ⟨(verifier_error_implies_no_handle none "signed" [] fsW).1 (by decide),
   (verifier_error_implies_no_handle none "signed" [] fsW).2 (by decide)⟩

/-- **C3, as stated, is false**: on the fixture's file `bykey1` (signed,
with a readable companion signature file), a key-ring that is set but
contains zero identities does not produce the no-key-ring cause — the
call proceeds to verification and fails with the unknown-issuer cause,
which is a different error value. -/
theorem empty_ring_not_no_keyring_counterexample :
    (OpenSignedSigFile (some []) "bykey1" fsW).2
        = some (.errUnsigned "bykey1" .errUnknownIssuer)
      ∧ some (VError.errUnsigned "bykey1" .errUnknownIssuer)
        ≠ some (VError.errUnsigned "bykey1" .errNoKeyRing) := by
  constructor
  · decide
  · decide

/-- **C3, amended.** If the key-ring is unset (nil), `OpenSignedSigFile`
fails with an unsigned-file error wrapping the no-key-ring cause, without
attempting signature verification; a key-ring that is set but holds zero
identities instead proceeds to verification and fails with an
unsigned-file error wrapping the unknown-issuer cause.  Both hold for
every path whose content and companion signature files open. -/
theorem nil_ring_fails_no_keyring
    (path : String) (fs : FS) (f sigf : VFile)
    (hf : fs.lookup path = some f)
    (hsig : fs.lookup (path ++ ".sig") = some sigf) :
    OpenSignedSigFile none path fs = (none, some (.errUnsigned path .errNoKeyRing))
      ∧ OpenSignedSigFile (some []) path fs
        = (none, some (.errUnsigned path .errUnknownIssuer)) := by
  constructor
  · simp only [OpenSignedSigFile, OpenSignedFile, hf, hsig]
  · simp only [OpenSignedSigFile, OpenSignedFile, hf, hsig, checkDetachedSignature,
      List.any_nil, Bool.false_eq_true, if_false, List.any_eq_true]
    simp

/-- Witness for the amended C3 on the `bykey1` fixture. -/
theorem nil_ring_fails_no_keyring_witness :
    OpenSignedSigFile none "bykey1" fsW
        = (none, some (.errUnsigned "bykey1" .errNoKeyRing))
      ∧ OpenSignedSigFile (some []) "bykey1" fsW
        = (none, some (.errUnsigned "bykey1" .errUnknownIssuer)) :=
  nil_ring_fails_no_keyring "bykey1" fsW
    { content := fooBytes, sigs := [] }
    { content := [], sigs := [{ issuer := 9, data := fooBytes }] }
    (by decide) (by decide)

/-- **C4.** For every path whose content file cannot be opened, both
verifiers return the raw open error naming the path, not wrapped in an
unsigned-file or invalid-hash error, whatever the ring or digest. -/
theorem nonexistent_file_raw_open_error
    (keyring : Option (List Entity)) (digest : List Nat) (path : String) (fs : FS)
    (habsent : fs.lookup path = none) :
    OpenSignedSigFile keyring path fs = (none, some (.pathError "open" path))
      ∧ OpenHashedFile256 path digest fs = (none, some (.pathError "open" path)) := by
  constructor
  · simp only [OpenSignedSigFile, OpenSignedFile, habsent]
  · simp only [OpenHashedFile256, habsent]

/-- Witness for C4 at a path missing from the fixture. -/
theorem nonexistent_file_raw_open_error_witness :
    OpenSignedSigFile (some [ent0]) "doesnotexist" fsW
        = (none, some (.pathError "open" "doesnotexist"))
      ∧ OpenHashedFile256 "doesnotexist" [1, 2] fsW
        = (none, some (.pathError "open" "doesnotexist")) :=
  nonexistent_file_raw_open_error (some [ent0]) [1, 2] "doesnotexist" fsW (by decide)

/-- **C5.** For every content file that opens while its companion
signature file at `path ++ ".sig"` does not, `OpenSignedSigFile` fails
with an unsigned-file error wrapping the signature file's open failure,
whose not-found cause names the `.sig` path. -/
theorem missing_sig_file_unsigned_error
    (keyring : Option (List Entity)) (path : String) (fs : FS) (f : VFile)
    (hf : fs.lookup path = some f)
    (hnosig : fs.lookup (path ++ ".sig") = none) :
    OpenSignedSigFile keyring path fs
      = (none, some (.errUnsigned path (.pathError "open" (path ++ ".sig")))) := by
  simp only [OpenSignedSigFile, OpenSignedFile, hf, hnosig]

/-- Witness for C5 on the fixture's `unsigned` file. -/
theorem missing_sig_file_unsigned_error_witness :
    OpenSignedSigFile (some [ent0]) "unsigned" fsW
      = (none, some (.errUnsigned "unsigned" (.pathError "open" "unsigned.sig"))) :=
  missing_sig_file_unsigned_error (some [ent0]) "unsigned" fsW
    { content := fooBytes, sigs := [] } (by decide) (by decide)

/-- **C6.** For every file signed only by a key `K2` and every ring whose
only identity owns no key with `K2`'s id, `OpenSignedSigFile` fails with
an unsigned-file error wrapping the unknown-issuer cause, and no handle
is returned. -/
theorem wrong_key_fails_unknown_issuer
    (path : String) (fs : FS) (f sigf : VFile) (e1 : Entity) (k2 : Nat)
    (hf : fs.lookup path = some f)
    (hsig : fs.lookup (path ++ ".sig") = some sigf)
    (hsigner : ∀ s ∈ sigf.sigs, s.issuer = k2)
    (hnokey : ∀ k ∈ e1.keys, k.keyId ≠ k2) :
    OpenSignedSigFile (some [e1]) path fs
      = (none, some (.errUnsigned path .errUnknownIssuer)) := by
  have hnoissuer : ∀ s ∈ sigf.sigs, e1.hasKeyId s.issuer = false := by
    intro s hs
    rw [Entity.hasKeyId, List.any_eq_false]
    intro k hk
    simp only [decide_eq_true_eq]
    rw [hsigner s hs]
    exact hnokey k hk
  have h1 : (sigf.sigs.any fun s =>
      [e1].any fun e => e.hasKeyId s.issuer && decide (s.data = f.content)) = false := by
    rw [List.any_eq_false]
    intro s hs
    simp [hnoissuer s hs]
  have h2 : (sigf.sigs.any fun s => [e1].any fun e => e.hasKeyId s.issuer) = false := by
    rw [List.any_eq_false]
    intro s hs
    simp [hnoissuer s hs]
  simp only [OpenSignedSigFile, OpenSignedFile, hf, hsig, checkDetachedSignature, h1, h2,
    Bool.false_eq_true, if_false]

/-- Witness for C6: the fixture's `bykey1` (signed by key id 9) against a
ring holding only `ent0` (key ids 5 and 6). -/
theorem wrong_key_fails_unknown_issuer_witness :
    OpenSignedSigFile (some [ent0]) "bykey1" fsW
      = (none, some (.errUnsigned "bykey1" .errUnknownIssuer)) :=
  wrong_key_fails_unknown_issuer "bykey1" fsW
    { content := fooBytes, sigs := [] }
    { content := [], sigs := [{ issuer := 9, data := fooBytes }] }
    ent0 9 (by decide) (by decide) (by decide) (by decide)

/-- **C7.** For every openable file, a zero-length expected digest makes
`OpenHashedFile256` fail with an invalid-hash error wrapping the
no-expected-hash cause — also when the file's content is empty — and no
handle is returned. -/
theorem empty_expected_digest_fails
    (path : String) (fs : FS) (f : VFile)
    (hf : fs.lookup path = some f) :
    OpenHashedFile256 path [] fs
      = (none, some (.errInvalidHash path .errNoExpectedHash)) := by
  simp only [OpenHashedFile256, hf, List.isEmpty_nil, if_true]

/-- Witness for C7 on the fixture's empty file: even empty content is
rejected when no expectation is supplied. -/
theorem empty_expected_digest_fails_witness :
    OpenHashedFile256 "empty" [] fsW
      = (none, some (.errInvalidHash "empty" .errNoExpectedHash)) :=
  empty_expected_digest_fails "empty" fsW { content := [], sigs := [] } (by decide)

/-- The modelled 256-bit digest is never the empty byte string (it always
has 32 bytes), so a correct expected digest never trips the
zero-length check. -/
theorem digest256_ne_nil (c : List Nat) : digest256 c ≠ [] := by
  intro h
  have := congrArg List.length h
  simp [digest256] at this

/-- **C8.** For every file and the expected digest equal to the 256-bit
digest of its content, `OpenHashedFile256` succeeds with no error and the
returned handle, read from offset 0, yields the full content; an empty
file with the digest of empty content is the same success path. -/
theorem correct_digest_succeeds
    (path : String) (fs : FS) (f : VFile)
    (hf : fs.lookup path = some f) :
    OpenHashedFile256 path (digest256 f.content) fs
        = (some { content := f.content, pos := 0 }, none)
      ∧ Handle.readAll { content := f.content, pos := 0 } = f.content := by
  refine ⟨?_, Handle.readAll_pos_zero f.content⟩
  have hne : (digest256 f.content).isEmpty = false := by
    cases h : digest256 f.content with
    | nil => exact absurd h (digest256_ne_nil f.content)
    | cons a l => rfl
  simp [OpenHashedFile256, hf, hne]

/-- Witness for C8: the fixture's `"foo"` file with its correct digest,
and the empty file with the digest of empty content. -/
theorem correct_digest_succeeds_witness :
    (OpenHashedFile256 "signed" (digest256 fooBytes) fsW
        = (some { content := fooBytes, pos := 0 }, none)
      ∧ Handle.readAll { content := fooBytes, pos := 0 } = fooBytes)
    ∧ (OpenHashedFile256 "empty" (digest256 []) fsW
        = (some { content := [], pos := 0 }, none)
      ∧ Handle.readAll { content := [], pos := 0 } = ([] : List Nat)) :=
  ⟨correct_digest_succeeds "signed" fsW { content := fooBytes, sigs := [] } (by decide),
   correct_digest_succeeds "empty" fsW { content := [], sigs := [] } (by decide)⟩

/-- **C9.** For every openable file and every non-empty expected digest
different from the 256-bit digest of its content, `OpenHashedFile256`
fails with an invalid-hash error wrapping a hash-mismatch cause carrying
both the computed digest and the expected one, and no handle is
returned. -/
theorem digest_mismatch_fails
    (path : String) (fs : FS) (f : VFile) (d : List Nat)
    (hf : fs.lookup path = some f)
    (hne : d ≠ [])
    (hmismatch : d ≠ digest256 f.content) :
    OpenHashedFile256 path d fs
      = (none, some (.errInvalidHash path (.errHashMismatch (digest256 f.content) d))) := by
  have hempty : d.isEmpty = false := by
    cases d with
    | nil => exact absurd rfl hne
    | cons a l => rfl
  simp only [OpenHashedFile256, hf, hempty, Bool.false_eq_true, if_false]
  rw [if_neg (fun h => hmismatch h.symm)]

/-- Witness for C9: the fixture's `"foo"` file against the test suite's
wrong digest `[0x99, 0x77]`. -/
theorem digest_mismatch_fails_witness :
    OpenHashedFile256 "signed" [153, 119] fsW
      = (none, some (.errInvalidHash "signed"
          (.errHashMismatch (digest256 fooBytes) [153, 119]))) :=
  digest_mismatch_fails "signed" fsW { content := fooBytes, sigs := [] } [153, 119]
    (by decide) (by decide) (by decide)

/-- The inner loop of `GetRSAKeysFromRing` (over one identity's sub-keys)
appends exactly the RSA sub-keys, in order, to its accumulator. -/
theorem foldl_rsa_subkeys (l : List Key) (a : List Key) :
    l.foldl (fun a k => if k.alg = .rsa then a ++ [k] else a) a
      = a ++ l.filter (fun k => k.alg = .rsa) := by
  induction l generalizing a with
  | nil => simp
  | cons k l ih =>
    by_cases h : k.alg = .rsa
    · simp [List.foldl_cons, h, ih, List.filter_cons]
    · simp [List.foldl_cons, h, ih, List.filter_cons]

/-- The outer loop of `GetRSAKeysFromRing` appends, identity by identity
in ring order, each identity's RSA keys — primary key first, then its
RSA sub-keys — to its accumulator. -/
theorem foldl_rsa_ring (ring : List Entity) (a : List Key) :
    ring.foldl (fun acc e =>
      let acc := if e.primaryKey.alg = .rsa then acc ++ [e.primaryKey] else acc
      e.subkeys.foldl (fun a k => if k.alg = .rsa then a ++ [k] else a) acc) a
      = a ++ ringRSAKeys ring := by
  induction ring generalizing a with
  | nil => simp [ringRSAKeys]
  | cons e ring ih =>
    simp only [List.foldl_cons]
    rw [ih, foldl_rsa_subkeys]
    by_cases h : e.primaryKey.alg = .rsa
    · simp [ringRSAKeys, entityRSAKeys, h, List.append_assoc]
    · simp [ringRSAKeys, entityRSAKeys, h, List.append_assoc]

/-- One identity contributes no RSA key exactly when none of its keys
(primary or sub-key) is RSA-tagged. -/
theorem entityRSAKeys_eq_nil (e : Entity) :
    entityRSAKeys e = [] ↔ ∀ k ∈ e.keys, k.alg ≠ .rsa := by
  by_cases h : e.primaryKey.alg = .rsa
  · simp [entityRSAKeys, h, Entity.keys]
  · simp [entityRSAKeys, h, Entity.keys, List.filter_eq_nil_iff]

/-- **C10.** `GetRSAKeysFromRing` returns exactly the RSA-tagged keys of
all identities — each identity's primary key before its own sub-keys,
identities in ring order — and fails with the no-usable-key error exactly
when no identity of the ring owns any RSA key; equivalently, it succeeds
as soon as one RSA key exists anywhere in the ring, even alongside
non-RSA identities.  (The extractor is a pure function of the ring, so
the input ring is unchanged.) -/
theorem getRSAKeysFromRing_characterisation (ring : List Entity) :
    GetRSAKeysFromRing ring
        = (if ringRSAKeys ring = [] then .error .errNoUsableKey
           else .ok (ringRSAKeys ring))
      ∧ (GetRSAKeysFromRing ring = .error .errNoUsableKey
          ↔ ∀ e ∈ ring, ∀ k ∈ e.keys, k.alg ≠ .rsa) := by
  have hfold := foldl_rsa_ring ring []
  have hmain : GetRSAKeysFromRing ring
      = (if ringRSAKeys ring = [] then .error .errNoUsableKey
         else .ok (ringRSAKeys ring)) := by
    simp only [GetRSAKeysFromRing, hfold, List.nil_append]
    cases hr : ringRSAKeys ring with
    | nil => simp
    | cons k l => simp
  refine ⟨hmain, ?_⟩
  rw [hmain]
  have hnil : ringRSAKeys ring = [] ↔ ∀ e ∈ ring, ∀ k ∈ e.keys, k.alg ≠ .rsa := by
    simp only [ringRSAKeys, List.flatten_eq_nil_iff]
    constructor
    · intro h e he
      exact (entityRSAKeys_eq_nil e).mp (h (entityRSAKeys e) (List.mem_map_of_mem _ he))
    · intro h l hl
      rcases List.mem_map.mp hl with ⟨e, he, rfl⟩
      exact (entityRSAKeys_eq_nil e).mpr (h e he)
  rw [← hnil]
  cases hr : ringRSAKeys ring with
  | nil => simp
  | cons k l => simp
